import Mathlib

/-!
Verification of `send_email.py` (antonio-backend-projects/smtp-mailer).

The Python source is shallowly embedded below.  The process environment is a
record of optional strings (a field is `none` when the variable is unset, and
`some ""` when it is set to the empty string, which Python treats as falsy in
`or`-chains).  Fallible Python code (`int()` conversion, `raise`) is embedded
as `Except String` results.  The network side of `send_smtp` is abstracted to
the ordered list of session actions the code requests from `smtplib`.
-/

namespace SmtpMailer

/-- Decidable equality for `Except`, used to evaluate embedded fallible
functions on concrete inputs. -/
instance {ε α : Type} [DecidableEq ε] [DecidableEq α] : DecidableEq (Except ε α) :=
  fun x y =>
    match x, y with
    | Except.error a, Except.error b =>
      if h : a = b then isTrue (by rw [h]) else isFalse (by simp [h])
    | Except.ok a, Except.ok b =>
      if h : a = b then isTrue (by rw [h]) else isFalse (by simp [h])
    | Except.error _, Except.ok _ => isFalse (by simp)
    | Except.ok _, Except.error _ => isFalse (by simp)

/-- Process environment: each field holds the value of the environment
variable of the same name, `none` when unset. -/
structure Env where
  MAIL_PROVIDER : Option String
  MAIL_USER : Option String
  MAIL_PASS : Option String
  MAIL_HOST : Option String
  MAIL_PORT : Option String
  MAIL_ENCRYPTION : Option String
  MAIL_FROM_NAME : Option String
  MAIL_FROM_ADDRESS : Option String
  MAIL_SSL_CAFILE : Option String
  SSL_CERT_FILE : Option String
  YAHOO_EMAIL : Option String
  YAHOO_APP_PASSWORD : Option String
deriving Repr, DecidableEq

/-- Environment with every variable unset. -/
def emptyEnv : Env :=
  ⟨none, none, none, none, none, none, none, none, none, none, none, none⟩

/-- Python `os.getenv(key, default)`: the raw value when the variable is set
(even when set to the empty string), otherwise the default. -/
def osGetenv (v : Option String) (d : String) : String :=
  v.getD d

/-- Embeds `env_get` (send_email.py lines 104-108): the fallback when the
variable is unset or set to the empty string, the value otherwise. -/
def env_get (v : Option String) (fallback : Option String) : Option String :=
  match v with
  | none => fallback
  | some s => if s = "" then fallback else some s

/-- Python truthiness of an optional string: `None` and the empty string are
falsy, every other string is truthy. -/
def truthy : Option String → Bool
  | none => false
  | some s => !(s == "")

/-- Python `x or y` on optional strings (returns `y` when `x` is falsy). -/
def pyOr (x y : Option String) : Option String :=
  if truthy x then x else y

/-- Python `x or d` where `d` is a plain (non-optional) string. -/
def orDefault (x : Option String) (d : String) : String :=
  match x with
  | none => d
  | some s => if s = "" then d else s

/-- Digit run of a Python integer literal, continued: accepts further digits,
with single underscores allowed between digits (Python `int("5_87") = 587`). -/
def parseDigitsAux (acc : Nat) : List Char → Option Nat
  | [] => some acc
  | c :: rest =>
    if c.isDigit then parseDigitsAux (10 * acc + (c.toNat - 48)) rest
    else if c = '_' then
      match rest with
      | [] => none
      | d :: rest2 =>
        if d.isDigit then parseDigitsAux (10 * acc + (d.toNat - 48)) rest2
        else none
    else none

/-- Digit run of a Python integer literal: nonempty, starts with a digit. -/
def parseDigits : List Char → Option Nat
  | [] => none
  | c :: rest => if c.isDigit then parseDigitsAux (c.toNat - 48) rest else none

/-- Python `int(s)` on a string: optional surrounding whitespace, an optional
sign, then a nonempty digit run (underscore separators allowed).  `none`
models the ValueErr + "or" that Python raises on any other string. -/
def pyInt (s : String) : Option Int :=
  let t := ((s.toList.dropWhile Char.isWhitespace).reverse.dropWhile
    Char.isWhitespace).reverse
  match t with
  | '+' :: rest => (parseDigits rest).map Int.ofNat
  | '-' :: rest => (parseDigits rest).map (fun n => -(Int.ofNat n))
  | _ => (parseDigits t).map Int.ofNat

/-- Python `s.lower()` restricted to ASCII case folding, which is all the
program needs: it is only applied to encryption-mode strings compared
against the ASCII set {tls, ssl, none}. -/
def pyLower (s : String) : String :=
  String.mk (s.data.map Char.toLower)

/-- The constant `YAHOO_DEFAULTS["MAIL_HOST"]` (line 97). -/
def YAHOO_MAIL_HOST : String := "smtp.mail.yahoo.com"

/-- `YAHOO_DEFAULTS["MAIL_USER"]` (line 95): `os.getenv("YAHOO_EMAIL", "antonio.trento@yahoo.com")`. -/
def yahooDefaultUser (e : Env) : String :=
  osGetenv e.YAHOO_EMAIL "antonio.trento@yahoo.com"

/-- `YAHOO_DEFAULTS["MAIL_PASS"]` (line 96): `os.getenv("YAHOO_APP_PASSWORD", "")`. -/
def yahooDefaultPass (e : Env) : String :=
  osGetenv e.YAHOO_APP_PASSWORD ""

/-- `YAHOO_DEFAULTS["MAIL_FROM_ADDRESS"]` (line 101). -/
def yahooDefaultFromAddress (e : Env) : String :=
  osGetenv e.YAHOO_EMAIL "antonio.trento@yahoo.com"

/-- The closed set of encryption modes, `{"tls", "ssl", "none"}`
(lines 122 and 263). -/
def encryptionModes : List String := ["tls", "ssl", "none"]

/-- The dictionary returned by `load_transport_from_env` (lines 110-124). -/
structure EnvCfg where
  provider : String
  user : String
  password : String
  host : String
  port : Int
  encryption : String
  from_name : String
  from_address : String
deriving Repr, DecidableEq

/-- Embeds `load_transport_from_env` (lines 110-124).  The `int()` conversion
of the port string is the one failure point, embedded as `Except.error`. -/
def load_transport_from_env (e : Env) : Except String EnvCfg :=
  let portStr := orDefault (env_get e.MAIL_PORT (some "587")) "587"
  match pyInt portStr with
  | none => Except.error ("invalid literal for int with base 10: " ++ portStr)
  | some port =>
    let enc0 := pyLower (orDefault (env_get e.MAIL_ENCRYPTION (some "tls")) "tls")
    Except.ok
      { provider := orDefault (env_get e.MAIL_PROVIDER (some "smtp")) "smtp"
        user := orDefault (env_get e.MAIL_USER (some (yahooDefaultUser e))) ""
        password := orDefault (env_get e.MAIL_PASS (some (yahooDefaultPass e))) ""
        host := orDefault (env_get e.MAIL_HOST (some YAHOO_MAIL_HOST)) ""
        port := port
        encryption := if enc0 ∈ encryptionModes then enc0 else "tls"
        from_name := orDefault (env_get e.MAIL_FROM_NAME (some "")) ""
        from_address :=
          orDefault (env_get e.MAIL_FROM_ADDRESS (some (yahooDefaultFromAddress e))) "" }

/-- The argparse namespace produced by `parse_args` (lines 126-155).  `cc`,
`bcc` and `attachments` default to `None` in the source; `None` and the empty
list behave identically everywhere downstream (`or []` and truthiness), so
both are embedded as the empty list. -/
structure Args where
  «to» : List String
  cc : List String
  bcc : List String
  subject : String
  text : String
  html : Option String
  attachments : List String
  reply_to : Option String
  from_address : Option String
  from_name : Option String
  user : Option String
  password : Option String
  host : Option String
  port : Option Int
  encryption : Option String
  cafile : Option String
  insecure : Bool
  dry_run : Bool
deriving Repr, DecidableEq

/-- The `choices=["tls", "ssl", "none"]` list of the `--encryption` flag
(line 146). -/
def encryptionChoices : List String := ["tls", "ssl", "none"]

/-- Embeds the argparse `choices` check on `--encryption` (line 146): a flag
value outside the choices list makes `parse_args` exit with a parse error;
an absent flag stays `None`. -/
def parseEncryptionArg (v : Option String) : Except String (Option String) :=
  match v with
  | none => Except.ok none
  | some s =>
    if s ∈ encryptionChoices then Except.ok (some s)
    else Except.error ("argument --encryption: invalid choice: " ++ s)

/-- The transport dictionary `tr` built by `resolve_config` (lines 244-254). -/
structure Transport where
  user : String
  password : String
  host : String
  port : Int
  encryption : String
  from_name : String
  from_address : String
  cafile : Option String
  insecure : Bool
deriving Repr, DecidableEq

/-- Embeds the override merge of `resolve_config` (lines 244-254): each CLI
value is taken exactly when it is not `None`, otherwise the environment-derived
value is kept. -/
def mergeCli (args : Args) (envCfg : EnvCfg) : Transport :=
  { user := args.user.getD envCfg.user
    password := args.password.getD envCfg.password
    host := args.host.getD envCfg.host
    port := args.port.getD envCfg.port
    encryption := args.encryption.getD envCfg.encryption
    from_name := args.from_name.getD envCfg.from_name
    from_address := args.from_address.getD envCfg.from_address
    cafile := args.cafile
    insecure := args.insecure }

/-- Embeds the fallback block of `resolve_config` (lines 256-264): empty
sender address is replaced by the username, empty host by the Yahoo default,
port `0` by `587` (Python `not tr["port"]` on an int is true exactly at 0),
and an encryption value outside the closed set by `"tls"`. -/
def applyFallbacks (tr : Transport) : Transport :=
  let tr1 := if tr.from_address = "" then { tr with from_address := tr.user } else tr
  let tr2 := if tr1.host = "" then { tr1 with host := YAHOO_MAIL_HOST } else tr1
  let tr3 := if tr2.port = 0 then { tr2 with port := 587 } else tr2
  if tr3.encryption ∈ encryptionModes then tr3 else { tr3 with encryption := "tls" }

/-- The message-field dictionary `msg_cfg` returned by `resolve_config`
(lines 266-269). -/
structure MsgCfg where
  from_address : String
  from_name : String
deriving Repr, DecidableEq

/-- Embeds `resolve_config` (lines 240-270). -/
def resolve_config (args : Args) (e : Env) : Except String (Transport × MsgCfg) :=
  match load_transport_from_env e with
  | Except.error m => Except.error m
  | Except.ok envCfg =>
    let tr := applyFallbacks (mergeCli args envCfg)
    Except.ok (tr, { from_address := tr.from_address, from_name := tr.from_name })

/-- Filesystem model for attachment paths: `none` when the path does not
exist, otherwise the stat result and the file bytes. -/
structure FileInfo where
  isFile : Bool
  data : List Nat
deriving Repr, DecidableEq

/-- A filesystem assigns to each path either nothing (the path does not
exist) or a `FileInfo`. -/
abbrev FileSystem := String → Option FileInfo

/-- Model of the `mimetypes` table: the content-type string that
`mimetypes.guess_type` returns for a path, `none` when the extension is
unrecognized.  Real table entries always contain a slash. -/
abbrev MimeTable := String → Option String

/-- Embeds `guess_mime_type` (lines 157-162): split the guessed content type
at the first slash, defaulting to application/octet-stream when the guess
fails. -/
def guess_mime_type (mime : MimeTable) (path : String) : String × String :=
  match mime path with
  | none => ("application", "octet-stream")
  | some ctype =>
    let parts := ctype.splitOn "/"
    (parts.headD "", String.intercalate "/" parts.tail)

/-- Python `Path(p).name`: the final path component (POSIX separators). -/
def pathName (p : String) : String :=
  (p.splitOn "/").getLastD ""

/-- Display form `email.utils.formataddr((name, address))` for plain ASCII
names; the quoting and encoding that formataddr applies to names containing
special characters is not modelled (no claim depends on it). -/
def formataddr (name address : String) : String :=
  name ++ " <" ++ address ++ ">"

/-- One MIME body part of the built message. -/
inductive BodyPart where
  | textPlain (body : String)
  | textHtml (body : String)
deriving Repr, DecidableEq

/-- One attachment part added by `msg.add_attachment` (line 201). -/
structure Attachment where
  maintype : String
  subtype : String
  filename : String
  data : List Nat
deriving Repr, DecidableEq

/-- The `EmailMessage` built by `build_message`: its headers in insertion
order, its body parts, its attachment parts, and the out-of-band
`__all_recipients__` attribute (line 205), which is not part of the
serialized message. -/
structure Message where
  headers : List (String × String)
  bodyParts : List BodyPart
  attachments : List Attachment
  allRecipients : List String
deriving Repr, DecidableEq

/-- Embeds the attachment loop of `build_message` (lines 194-201): paths are
processed in order; a path that does not exist or is not a regular file
raises `FileNotFoundErr` + "or" with the Italian message naming the path. -/
def buildAttachments (fs : FileSystem) (mime : MimeTable) :
    List String → Except String (List Attachment)
  | [] => Except.ok []
  | p :: rest =>
    match fs p with
    | none => Except.error ("Allegato non trovato: " ++ p)
    | some info =>
      if info.isFile then
        match buildAttachments fs mime rest with
        | Except.error m => Except.error m
        | Except.ok tl =>
          let ms := guess_mime_type mime p
          Except.ok ({ maintype := ms.1, subtype := ms.2,
                       filename := pathName p, data := info.data } :: tl)
      else Except.error ("Allegato non trovato: " ++ p)

/-- Embeds `build_message` (lines 164-206).  Headers From and To are always
set; Cc only when the cc list is nonempty, Reply-To only when truthy.  A
truthy html body yields a multipart body (plain text primary, html
alternative); otherwise the single plain-text part.  The
`__all_recipients__` attribute is the de-duplicated union of to, cc, bcc
(Python `list({*to, *cc, *bcc})`; the hash order of a Python set is not
specified, embedded here as `List.dedup`). -/
def build_message (fs : FileSystem) (mime : MimeTable)
    (from_address from_name : String) (toRcpts : List String) (subject : String)
    (text : String) (html : Option String) (cc bcc : List String)
    (reply_to : Option String) (attachments : List String) :
    Except String Message :=
  match buildAttachments fs mime attachments with
  | Except.error m => Except.error m
  | Except.ok atts =>
    let displayFrom :=
      if from_name ≠ "" then formataddr from_name from_address else from_address
    let headers :=
      [("From", displayFrom), ("To", String.intercalate ", " toRcpts)]
      ++ (if cc ≠ [] then [("Cc", String.intercalate ", " cc)] else [])
      ++ [("Subject", subject)]
      ++ (if truthy reply_to then [("Reply-To", reply_to.getD "")] else [])
    let parts :=
      if truthy html then
        [BodyPart.textPlain text, BodyPart.textHtml (html.getD "")]
      else [BodyPart.textPlain text]
    Except.ok { headers := headers, bodyParts := parts, attachments := atts,
                allRecipients := (toRcpts ++ cc ++ bcc).dedup }

/-- Where the verification roots of a TLS context come from. -/
inductive CaSource where
  | caFile (path : String)
  | systemDefault
deriving Repr, DecidableEq

/-- Observable state of the `ssl.SSLContext` built by `_build_ssl_context`. -/
structure SslCtx where
  source : CaSource
  checkHostname : Bool
  verifyCert : Bool
deriving Repr, DecidableEq

/-- Embeds `_build_ssl_context` (lines 76-90).  `certifiDefault` is the
module constant `_CAFILE_DEFAULT` (`certifi.where()` when certifi imports,
`None` otherwise).  The cafile is the first truthy value of the Python
`or`-chain: argument, MAIL_SSL_CAFILE, SSL_CERT_FILE, certifi default; when
every link is falsy the platform default trust store is used. -/
def build_ssl_context (cafileArg : Option String) (e : Env)
    (certifiDefault : Option String) (insecure : Bool) : SslCtx :=
  let cafile := pyOr (pyOr (pyOr cafileArg e.MAIL_SSL_CAFILE) e.SSL_CERT_FILE) certifiDefault
  let source :=
    if truthy cafile then CaSource.caFile (cafile.getD "") else CaSource.systemDefault
  { source := source, checkHostname := !insecure, verifyCert := !insecure }

/-- One action that `send_smtp` asks the smtplib session to perform. -/
inductive SmtpAction where
  | connectSsl (host : String) (port : Int) (context : SslCtx)
  | connectPlain (host : String) (port : Int)
  | ehlo
  | upgradeTls (context : SslCtx)
  | login (user password : String)
  | transmit (recipients : List String)
deriving Repr, DecidableEq

/-- Embeds `send_smtp` (lines 208-238) as the ordered list of session actions
the code requests, paired with the error it raises (if any).  The empty
recipient check precedes every action; network behaviour itself is delegated
to smtplib and not modelled. -/
def send_smtp (e : Env) (certifiDefault : Option String) (msg : Message)
    (user password host : String) (port : Int) (encryption : String)
    (cafile : Option String) (insecure : Bool) :
    List SmtpAction × Option String :=
  if msg.allRecipients = [] then
    ([], some "Nessun destinatario (To/Cc/Bcc) indicato.")
  else
    let enc := pyLower (if encryption = "" then "tls" else encryption)
    if enc = "ssl" then
      let context := build_ssl_context cafile e certifiDefault insecure
      ([SmtpAction.connectSsl host port context]
        ++ (if user ≠ "" then [SmtpAction.login user password] else [])
        ++ [SmtpAction.transmit msg.allRecipients], none)
    else
      (([SmtpAction.connectPlain host port, SmtpAction.ehlo]
        ++ (if enc = "tls" then
              [SmtpAction.upgradeTls (build_ssl_context cafile e certifiDefault insecure),
               SmtpAction.ehlo]
            else [])
        ++ (if user ≠ "" then [SmtpAction.login user password] else [])
        ++ [SmtpAction.transmit msg.allRecipients]), none)

/-- A path failing the attachment check of build_message (line 196): it does
not exist in the filesystem or is not a regular file. -/
def badPath (fs : FileSystem) (p : String) : Bool :=
  match fs p with
  | none => true
  | some info => !info.isFile

/-- Whether a built message carries an HTML alternative part. -/
def hasHtmlPart (m : Message) : Bool :=
  m.bodyParts.any fun p =>
    match p with
    | BodyPart.textHtml _ => true
    | BodyPart.textPlain _ => false

/-- Serialized view of a build result: headers, body parts and attachments —
everything except the out-of-band `__all_recipients__` attribute, which is
an ordinary Python attribute and never part of the serialized message. -/
def serializedView (r : Except String Message) :
    Except String (List (String × String) × List BodyPart × List Attachment) :=
  match r with
  | Except.error m => Except.error m
  | Except.ok msg => Except.ok (msg.headers, msg.bodyParts, msg.attachments)

/-! ## Claim theorems -/

/-- C1: for every successfully built message, the delivery recipient set
attached to it (the out-of-band `__all_recipients__` list) equals, as a set,
the de-duplicated union of the To, Cc and Bcc address lists and carries no
duplicates; and invoking `send_smtp` on a message whose delivery recipient
set is empty fails with the no-recipients error while performing no SMTP
session action, in particular before any connection is opened. -/
theorem recipientSetIsDedupUnionAndEmptySendFailsEarly :
    (∀ (fs : FileSystem) (mime : MimeTable) (fa fn : String) (toRcpts : List String)
        (subject text : String) (html : Option String) (cc bcc : List String)
        (rt : Option String) (atts : List String) (msg : Message),
      build_message fs mime fa fn toRcpts subject text html cc bcc rt atts =
          Except.ok msg →
      msg.allRecipients.toFinset = toRcpts.toFinset ∪ cc.toFinset ∪ bcc.toFinset ∧
        msg.allRecipients.Nodup) ∧
    (∀ (e : Env) (cd : Option String) (msg : Message) (user password host : String)
        (port : Int) (encryption : String) (cafile : Option String) (insecure : Bool),
      msg.allRecipients = [] →
      send_smtp e cd msg user password host port encryption cafile insecure =
        ([], some "Nessun destinatario (To/Cc/Bcc) indicato.")) := by
  constructor
  · intro fs mime fa fn toRcpts subject text html cc bcc rt atts msg h
    unfold build_message at h
    cases hA : buildAttachments fs mime atts with
    | error m => rw [hA] at h; exact absurd h (by simp)
    | ok tl =>
      rw [hA] at h
      simp only [Except.ok.injEq] at h
      subst h
      refine ⟨?_, List.nodup_dedup _⟩
      ext a
      simp [List.mem_dedup, or_assoc]
  · intro e cd msg user password host port encryption cafile insecure h
    unfold send_smtp
    rw [h]
    simp

/-- Witness for C1 at concrete inputs: a one-recipient build, and a send on a
message with an empty recipient set. -/
theorem recipientSetIsDedupUnionAndEmptySendFailsEarlyWitness :
    (build_message (fun _ => none) (fun _ => none) "a@x.com" "" ["r@x.com"] "Hi"
        "Hello" none ["c@x.com"] ["r@x.com"] none [] =
      Except.ok
        { headers := [("From", "a@x.com"), ("To", "r@x.com"), ("Cc", "c@x.com"),
                      ("Subject", "Hi")],
          bodyParts := [BodyPart.textPlain "Hello"], attachments := [],
          allRecipients := ["c@x.com", "r@x.com"] } ∧
      (["c@x.com", "r@x.com"] : List String).toFinset =
        (["r@x.com"] : List String).toFinset ∪ (["c@x.com"] : List String).toFinset ∪
          (["r@x.com"] : List String).toFinset ∧
      (["c@x.com", "r@x.com"] : List String).Nodup) ∧
    ((Message.mk [] [] [] []).allRecipients = [] ∧
      send_smtp emptyEnv none (Message.mk [] [] [] []) "" "" "h" 25 "tls" none false =
        ([], some "Nessun destinatario (To/Cc/Bcc) indicato.")) := by
  constructor
  · refine ⟨by decide, ?_, ?_⟩
    · exact (recipientSetIsDedupUnionAndEmptySendFailsEarly.1 (fun _ => none)
        (fun _ => none) "a@x.com" "" ["r@x.com"] "Hi" "Hello" none ["c@x.com"]
        ["r@x.com"] none []
        { headers := [("From", "a@x.com"), ("To", "r@x.com"), ("Cc", "c@x.com"),
                      ("Subject", "Hi")],
          bodyParts := [BodyPart.textPlain "Hello"], attachments := [],
          allRecipients := ["c@x.com", "r@x.com"] } (by decide)).1
    · exact (recipientSetIsDedupUnionAndEmptySendFailsEarly.1 (fun _ => none)
        (fun _ => none) "a@x.com" "" ["r@x.com"] "Hi" "Hello" none ["c@x.com"]
        ["r@x.com"] none []
        { headers := [("From", "a@x.com"), ("To", "r@x.com"), ("Cc", "c@x.com"),
                      ("Subject", "Hi")],
          bodyParts := [BodyPart.textPlain "Hello"], attachments := [],
          allRecipients := ["c@x.com", "r@x.com"] } (by decide)).2
  · exact ⟨rfl, recipientSetIsDedupUnionAndEmptySendFailsEarly.2 emptyEnv none
      (Message.mk [] [] [] []) "" "" "h" 25 "tls" none false rfl⟩

/-- C2 as stated is false at the input "SSL": that string lies outside the
closed set {"tls", "ssl", "none"}, yet configuration resolution yields the
mode "ssl" (implicit TLS), not "tls" (STARTTLS), because the code lowercases
the value before the membership test. -/
theorem envEncryptionInvalidValueCounterexample :
    ("SSL" ∉ encryptionModes) ∧
    load_transport_from_env { emptyEnv with MAIL_ENCRYPTION := some "SSL" } =
      Except.ok { provider := "smtp", user := "antonio.trento@yahoo.com",
                  password := "", host := "smtp.mail.yahoo.com", port := 587,
                  encryption := "ssl", from_name := "",
                  from_address := "antonio.trento@yahoo.com" } ∧
    ("ssl" : String) ≠ "tls" :=
  ⟨by decide, by decide, by decide⟩

/-- C2 amended: the silent fallback applies to the ASCII-lowercased value.
For every environment whose MAIL_ENCRYPTION is unset, or is set to a string
whose lowercased form is outside the closed set {tls, ssl, none} (the empty
string included), a successful configuration load resolves the encryption
mode to "tls" (STARTTLS); and the encryption value never causes an error:
whether the load succeeds does not depend on MAIL_ENCRYPTION at all. -/
theorem envEncryptionLowerInvalidFallsBackToTls (e : Env)
    (h : e.MAIL_ENCRYPTION = none ∨
      ∃ v, e.MAIL_ENCRYPTION = some v ∧ pyLower v ∉ encryptionModes) :
    (∀ cfg, load_transport_from_env e = Except.ok cfg → cfg.encryption = "tls") ∧
    (load_transport_from_env e).isOk =
      (pyInt (orDefault (env_get e.MAIL_PORT (some "587")) "587")).isSome := by
  constructor
  · intro cfg hcfg
    unfold load_transport_from_env at hcfg
    cases hp : pyInt (orDefault (env_get e.MAIL_PORT (some "587")) "587") with
    | none =>
      simp only [hp] at hcfg
      exact absurd hcfg (by simp)
    | some port =>
      simp only [hp, Except.ok.injEq] at hcfg
      rcases h with hnone | ⟨w, hw, hbad⟩
      · rw [hnone] at hcfg
        subst hcfg
        show (if pyLower (orDefault (env_get none (some "tls")) "tls") ∈
              encryptionModes then
              pyLower (orDefault (env_get none (some "tls")) "tls")
            else "tls") = "tls"
        decide
      · rw [hw] at hcfg
        subst hcfg
        show (if pyLower (orDefault (env_get (some w) (some "tls")) "tls") ∈
              encryptionModes then
              pyLower (orDefault (env_get (some w) (some "tls")) "tls")
            else "tls") = "tls"
        by_cases hv0 : w = ""
        · subst hv0; decide
        · simp only [env_get, orDefault, if_neg hv0]
          exact if_neg hbad
  · unfold load_transport_from_env
    cases hp : pyInt (orDefault (env_get e.MAIL_PORT (some "587")) "587") with
    | none => simp only [hp]; rfl
    | some port => simp only [hp]; rfl

/-- Witness for the amended C2 at the concrete value "bogus". -/
theorem envEncryptionLowerInvalidFallsBackToTlsWitness :
    (pyLower "bogus" ∉ encryptionModes) ∧
    ({ provider := "smtp", user := "antonio.trento@yahoo.com", password := "",
       host := "smtp.mail.yahoo.com", port := 587, encryption := "tls",
       from_name := "", from_address := "antonio.trento@yahoo.com" } :
        EnvCfg).encryption = "tls" :=
  ⟨by decide,
   (envEncryptionLowerInvalidFallsBackToTls
      { emptyEnv with MAIL_ENCRYPTION := some "bogus" }
      (Or.inr ⟨"bogus", rfl, by decide⟩)).1
     { provider := "smtp", user := "antonio.trento@yahoo.com", password := "",
       host := "smtp.mail.yahoo.com", port := 587, encryption := "tls",
       from_name := "", from_address := "antonio.trento@yahoo.com" }
     (by decide)⟩

/-- C3: the command-line override merge of resolve_config (lines 244-254):
for each of the seven transport settings, an explicitly supplied CLI value
(not None) is taken verbatim, and an absent CLI value leaves the
environment-derived value (with its defaults already applied) unchanged.
The post-merge fallbacks of lines 256-264 are the subject of claim C6. -/
theorem cliOverrideTakesPrecedenceExactlyWhenSupplied (args : Args) (envCfg : EnvCfg) :
    ((∀ v, args.user = some v → (mergeCli args envCfg).user = v) ∧
      (args.user = none → (mergeCli args envCfg).user = envCfg.user)) ∧
    ((∀ v, args.password = some v → (mergeCli args envCfg).password = v) ∧
      (args.password = none → (mergeCli args envCfg).password = envCfg.password)) ∧
    ((∀ v, args.host = some v → (mergeCli args envCfg).host = v) ∧
      (args.host = none → (mergeCli args envCfg).host = envCfg.host)) ∧
    ((∀ v, args.port = some v → (mergeCli args envCfg).port = v) ∧
      (args.port = none → (mergeCli args envCfg).port = envCfg.port)) ∧
    ((∀ v, args.encryption = some v → (mergeCli args envCfg).encryption = v) ∧
      (args.encryption = none → (mergeCli args envCfg).encryption = envCfg.encryption)) ∧
    ((∀ v, args.from_name = some v → (mergeCli args envCfg).from_name = v) ∧
      (args.from_name = none → (mergeCli args envCfg).from_name = envCfg.from_name)) ∧
    ((∀ v, args.from_address = some v → (mergeCli args envCfg).from_address = v) ∧
      (args.from_address = none →
        (mergeCli args envCfg).from_address = envCfg.from_address)) := by
  refine ⟨⟨?_, ?_⟩, ⟨?_, ?_⟩, ⟨?_, ?_⟩, ⟨?_, ?_⟩, ⟨?_, ?_⟩, ⟨?_, ?_⟩, ?_, ?_⟩ <;>
    · intros
      simp [mergeCli, *]

/-- Witness for C3: a CLI user override is taken, an absent CLI host leaves
the environment host unchanged. -/
theorem cliOverrideTakesPrecedenceExactlyWhenSuppliedWitness :
    (mergeCli
        { «to» := ["r@x.com"], cc := [], bcc := [], subject := "s", text := "t",
          html := none, attachments := [], reply_to := none, from_address := none,
          from_name := none, user := some "cliuser", password := none, host := none,
          port := none, encryption := none, cafile := none, insecure := false,
          dry_run := false }
        { provider := "smtp", user := "envuser", password := "pw",
          host := "smtp.example.com", port := 25, encryption := "tls",
          from_name := "", from_address := "env@x.com" }).user = "cliuser" ∧
    (mergeCli
        { «to» := ["r@x.com"], cc := [], bcc := [], subject := "s", text := "t",
          html := none, attachments := [], reply_to := none, from_address := none,
          from_name := none, user := some "cliuser", password := none, host := none,
          port := none, encryption := none, cafile := none, insecure := false,
          dry_run := false }
        { provider := "smtp", user := "envuser", password := "pw",
          host := "smtp.example.com", port := 25, encryption := "tls",
          from_name := "", from_address := "env@x.com" }).host = "smtp.example.com" :=
  ⟨(cliOverrideTakesPrecedenceExactlyWhenSupplied
      { «to» := ["r@x.com"], cc := [], bcc := [], subject := "s", text := "t",
        html := none, attachments := [], reply_to := none, from_address := none,
        from_name := none, user := some "cliuser", password := none, host := none,
        port := none, encryption := none, cafile := none, insecure := false,
        dry_run := false }
      { provider := "smtp", user := "envuser", password := "pw",
        host := "smtp.example.com", port := 25, encryption := "tls",
        from_name := "", from_address := "env@x.com" }).1.1 "cliuser" rfl,
   (cliOverrideTakesPrecedenceExactlyWhenSupplied
      { «to» := ["r@x.com"], cc := [], bcc := [], subject := "s", text := "t",
        html := none, attachments := [], reply_to := none, from_address := none,
        from_name := none, user := some "cliuser", password := none, host := none,
        port := none, encryption := none, cafile := none, insecure := false,
        dry_run := false }
      { provider := "smtp", user := "envuser", password := "pw",
        host := "smtp.example.com", port := 25, encryption := "tls",
        from_name := "", from_address := "env@x.com" }).2.2.1.2 rfl⟩

/-- The attachment loop raises the file-not-found error of the first bad
path it reaches. -/
theorem buildAttachments_error_of_bad (fs : FileSystem) (mime : MimeTable) :
    ∀ atts : List String, (∃ p ∈ atts, badPath fs p = true) →
      ∃ q ∈ atts, badPath fs q = true ∧
        buildAttachments fs mime atts =
          Except.error ("Allegato non trovato: " ++ q) := by
  intro atts
  induction atts with
  | nil => rintro ⟨p, hp, _⟩; cases hp
  | cons p rest ih =>
    rintro ⟨q, hq, hbad⟩
    by_cases hb : badPath fs p = true
    · refine ⟨p, List.mem_cons_self p rest, hb, ?_⟩
      unfold badPath at hb
      unfold buildAttachments
      cases hfp : fs p with
      | none => simp
      | some info =>
        rw [hfp] at hb
        simp only [Bool.not_eq_true'] at hb
        simp [hb]
    · have hgood : ∃ info, fs p = some info ∧ info.isFile = true := by
        unfold badPath at hb
        cases hfp : fs p with
        | none => rw [hfp] at hb; simp at hb
        | some info =>
          rw [hfp] at hb
          simp only [Bool.not_eq_true', Bool.not_eq_false] at hb
          exact ⟨info, rfl, hb⟩
      obtain ⟨info, hfp, hfile⟩ := hgood
      have hq2 : q ∈ rest := by
        rcases List.mem_cons.mp hq with h1 | h2
        · exact absurd (h1 ▸ hbad) hb
        · exact h2
      obtain ⟨r, hr, hrbad, herr⟩ := ih ⟨q, hq2, hbad⟩
      refine ⟨r, List.mem_cons_of_mem _ hr, hrbad, ?_⟩
      unfold buildAttachments
      rw [hfp]
      simp [hfile, herr]

/-- C4: building a message whose attachment path list contains a path that
does not exist or is not a regular file fails with the file-not-found error
naming the (first such) offending path, and no message object is returned. -/
theorem attachmentMissingFailsWholeBuild (fs : FileSystem) (mime : MimeTable)
    (fa fn : String) (toRcpts : List String) (subject text : String)
    (html : Option String) (cc bcc : List String) (rt : Option String)
    (atts : List String) (h : ∃ p ∈ atts, badPath fs p = true) :
    (∃ q ∈ atts, badPath fs q = true ∧
      build_message fs mime fa fn toRcpts subject text html cc bcc rt atts =
        Except.error ("Allegato non trovato: " ++ q)) ∧
    (∀ msg, build_message fs mime fa fn toRcpts subject text html cc bcc rt atts ≠
      Except.ok msg) := by
  obtain ⟨q, hq, hbad, herr⟩ := buildAttachments_error_of_bad fs mime atts h
  constructor
  · exact ⟨q, hq, hbad, by unfold build_message; rw [herr]⟩
  · intro msg hcontra
    unfold build_message at hcontra
    rw [herr] at hcontra
    exact absurd hcontra (by simp)

/-- Witness for C4: building with a single attachment path absent from the
filesystem fails with the error naming it. -/
theorem attachmentMissingFailsWholeBuildWitness :
    ((∃ p ∈ ["report.pdf"], badPath (fun _ => none) p = true) ∧
      ∃ q ∈ ["report.pdf"], badPath (fun _ => none) q = true ∧
        build_message (fun _ => none) (fun _ => none) "a@x.com" "" ["r@x.com"]
          "s" "t" none [] [] none ["report.pdf"] =
          Except.error ("Allegato non trovato: " ++ q)) :=
  ⟨⟨"report.pdf", by simp, by decide⟩,
   (attachmentMissingFailsWholeBuild (fun _ => none) (fun _ => none) "a@x.com" ""
      ["r@x.com"] "s" "t" none [] [] none ["report.pdf"]
      ⟨"report.pdf", by simp, by decide⟩).1⟩

/-- C5 as stated is false at the input html = some "": an HTML body is
supplied (the empty string), yet the built message carries only the
plain-text part and no HTML alternative, because the code tests Python
truthiness (`if html:`), not presence. -/
theorem htmlEmptyStringSuppliedYieldsSinglePart :
    build_message (fun _ => none) (fun _ => none) "a@x.com" "" ["r@x.com"] "s" "t"
        (some "") [] [] none [] =
      Except.ok { headers := [("From", "a@x.com"), ("To", "r@x.com"), ("Subject", "s")],
                  bodyParts := [BodyPart.textPlain "t"], attachments := [],
                  allRecipients := ["r@x.com"] } ∧
    hasHtmlPart { headers := [("From", "a@x.com"), ("To", "r@x.com"), ("Subject", "s")],
                  bodyParts := [BodyPart.textPlain "t"], attachments := [],
                  allRecipients := ["r@x.com"] } = false :=
  ⟨by decide, by decide⟩

/-- C5 amended: when a non-empty HTML body is supplied, the message body is
multipart — the plain-text body as the primary part followed by the HTML
body as the alternative part; when the HTML body is absent or empty, the
body is the single plain-text part. -/
theorem htmlNonemptyYieldsAlternativePart (fs : FileSystem) (mime : MimeTable)
    (fa fn : String) (toRcpts : List String) (subject text : String)
    (html : Option String) (cc bcc : List String) (rt : Option String)
    (atts : List String) (msg : Message)
    (h : build_message fs mime fa fn toRcpts subject text html cc bcc rt atts =
      Except.ok msg) :
    (∀ hb, html = some hb → hb ≠ "" →
      msg.bodyParts = [BodyPart.textPlain text, BodyPart.textHtml hb]) ∧
    ((html = none ∨ html = some "") → msg.bodyParts = [BodyPart.textPlain text]) := by
  unfold build_message at h
  cases hA : buildAttachments fs mime atts with
  | error m => rw [hA] at h; exact absurd h (by simp)
  | ok tl =>
    rw [hA] at h
    simp only [Except.ok.injEq] at h
    subst h
    constructor
    · intro hb hhb hne
      subst hhb
      simp [truthy, hne]
    · rintro (h0 | h0) <;> subst h0 <;> simp [truthy]

/-- Witness for the amended C5 at a concrete non-empty HTML body. -/
theorem htmlNonemptyYieldsAlternativePartWitness :
    (some "<b>x</b>" = some "<b>x</b>" ∧ ("<b>x</b>" : String) ≠ "") ∧
    ({ headers := [("From", "a@x.com"), ("To", "r@x.com"), ("Subject", "s")],
       bodyParts := [BodyPart.textPlain "t", BodyPart.textHtml "<b>x</b>"],
       attachments := [], allRecipients := ["r@x.com"] } : Message).bodyParts =
      [BodyPart.textPlain "t", BodyPart.textHtml "<b>x</b>"] :=
  ⟨⟨rfl, by decide⟩,
   (htmlNonemptyYieldsAlternativePart (fun _ => none) (fun _ => none) "a@x.com" ""
      ["r@x.com"] "s" "t" (some "<b>x</b>") [] [] none []
      { headers := [("From", "a@x.com"), ("To", "r@x.com"), ("Subject", "s")],
        bodyParts := [BodyPart.textPlain "t", BodyPart.textHtml "<b>x</b>"],
        attachments := [], allRecipients := ["r@x.com"] }
      (by decide)).1 "<b>x</b>" rfl (by decide)⟩

/-- Field-by-field description of the fallback pass (lines 256-264). -/
theorem applyFallbacks_fields (tr : Transport) :
    (applyFallbacks tr).from_address =
        (if tr.from_address = "" then tr.user else tr.from_address) ∧
    (applyFallbacks tr).host = (if tr.host = "" then YAHOO_MAIL_HOST else tr.host) ∧
    (applyFallbacks tr).port = (if tr.port = 0 then 587 else tr.port) ∧
    (applyFallbacks tr).encryption =
        (if tr.encryption ∈ encryptionModes then tr.encryption else "tls") ∧
    (applyFallbacks tr).user = tr.user ∧
    (applyFallbacks tr).password = tr.password ∧
    (applyFallbacks tr).from_name = tr.from_name ∧
    (applyFallbacks tr).cafile = tr.cafile ∧
    (applyFallbacks tr).insecure = tr.insecure := by
  simp only [applyFallbacks]
  split_ifs <;> simp_all

/-- C6: after the override merge, resolve_config applies exactly these
fallbacks (lines 256-262): an empty sender address is replaced by the
username, an empty host by the built-in default host, a zero port by 587;
the username, password and display-name settings pass through unchanged. -/
theorem resolveFallbackPolicy (tr : Transport) :
    ((applyFallbacks tr).from_address =
      if tr.from_address = "" then tr.user else tr.from_address) ∧
    ((applyFallbacks tr).host = if tr.host = "" then YAHOO_MAIL_HOST else tr.host) ∧
    ((applyFallbacks tr).port = if tr.port = 0 then 587 else tr.port) ∧
    (applyFallbacks tr).user = tr.user ∧
    (applyFallbacks tr).password = tr.password ∧
    (applyFallbacks tr).from_name = tr.from_name :=
  ⟨(applyFallbacks_fields tr).1, (applyFallbacks_fields tr).2.1,
   (applyFallbacks_fields tr).2.2.1, (applyFallbacks_fields tr).2.2.2.2.1,
   (applyFallbacks_fields tr).2.2.2.2.2.1, (applyFallbacks_fields tr).2.2.2.2.2.2.1⟩

/-- C7: certificate-bundle priority of the TLS context builder (lines 76-90):
the first present (truthy) source in the order CLI cafile argument, then the
MAIL_SSL_CAFILE environment variable, then the SSL_CERT_FILE environment
variable, then the certifi bundle, determines the verification roots; when
all four are absent the platform default trust store is used.  The single
"environment-specified bundle path" level of the spec is realized by the two
environment variables, in that order. -/
theorem cafileSourcePriority (cafileArg : Option String) (e : Env)
    (certifiDefault : Option String) (insecure : Bool) :
    (truthy cafileArg = true →
      (build_ssl_context cafileArg e certifiDefault insecure).source =
        CaSource.caFile (cafileArg.getD "")) ∧
    (truthy cafileArg = false → truthy e.MAIL_SSL_CAFILE = true →
      (build_ssl_context cafileArg e certifiDefault insecure).source =
        CaSource.caFile (e.MAIL_SSL_CAFILE.getD "")) ∧
    (truthy cafileArg = false → truthy e.MAIL_SSL_CAFILE = false →
      truthy e.SSL_CERT_FILE = true →
      (build_ssl_context cafileArg e certifiDefault insecure).source =
        CaSource.caFile (e.SSL_CERT_FILE.getD "")) ∧
    (truthy cafileArg = false → truthy e.MAIL_SSL_CAFILE = false →
      truthy e.SSL_CERT_FILE = false → truthy certifiDefault = true →
      (build_ssl_context cafileArg e certifiDefault insecure).source =
        CaSource.caFile (certifiDefault.getD "")) ∧
    (truthy cafileArg = false → truthy e.MAIL_SSL_CAFILE = false →
      truthy e.SSL_CERT_FILE = false → truthy certifiDefault = false →
      (build_ssl_context cafileArg e certifiDefault insecure).source =
        CaSource.systemDefault) := by
  refine ⟨?_, ?_, ?_, ?_, ?_⟩ <;>
    · intros
      simp [build_ssl_context, pyOr, *]

/-- Witness for C7: with no CLI cafile and MAIL_SSL_CAFILE set, the context
uses the environment-specified bundle. -/
theorem cafileSourcePriorityWitness :
    truthy (none : Option String) = false ∧
    truthy ({ emptyEnv with MAIL_SSL_CAFILE := some "/etc/ca.pem" } :
      Env).MAIL_SSL_CAFILE = true ∧
    (build_ssl_context none { emptyEnv with MAIL_SSL_CAFILE := some "/etc/ca.pem" }
        (some "/certifi/cacert.pem") false).source = CaSource.caFile "/etc/ca.pem" :=
  ⟨rfl, by decide,
   (cafileSourcePriority none { emptyEnv with MAIL_SSL_CAFILE := some "/etc/ca.pem" }
      (some "/certifi/cacert.pem") false).2.1 rfl (by decide)⟩

/-- C8: Bcc addresses never reach any header of the built message: the
serialized view (headers, body, attachments) is identical for any two Bcc
lists — the Bcc list influences only the out-of-band delivery recipient
set — and every header name build_message sets is among From, To, Cc,
Subject, Reply-To. -/
theorem bccNeverAppearsInHeaders (fs : FileSystem) (mime : MimeTable)
    (fa fn : String) (toRcpts : List String) (subject text : String)
    (html : Option String) (cc : List String) (rt : Option String)
    (atts : List String) :
    (∀ bcc1 bcc2,
      serializedView
          (build_message fs mime fa fn toRcpts subject text html cc bcc1 rt atts) =
        serializedView
          (build_message fs mime fa fn toRcpts subject text html cc bcc2 rt atts)) ∧
    (∀ bcc msg,
      build_message fs mime fa fn toRcpts subject text html cc bcc rt atts =
          Except.ok msg →
      ∀ n v, (n, v) ∈ msg.headers →
        n ∈ ["From", "To", "Cc", "Subject", "Reply-To"]) := by
  constructor
  · intro bcc1 bcc2
    unfold build_message
    cases hA : buildAttachments fs mime atts <;> simp [serializedView]
  · intro bcc msg h n v hnv
    unfold build_message at h
    cases hA : buildAttachments fs mime atts with
    | error m => rw [hA] at h; exact absurd h (by simp)
    | ok tl =>
      rw [hA] at h
      simp only [Except.ok.injEq] at h
      subst h
      simp only [List.mem_append, List.mem_cons, List.not_mem_nil, or_false,
        Prod.mk.injEq] at hnv
      split at hnv <;> split at hnv <;> split at hnv <;>
        · simp only [List.mem_cons, List.not_mem_nil, or_false, List.mem_append,
            Prod.mk.injEq] at hnv
          simp only [List.mem_cons, List.not_mem_nil, or_false]
          tauto

/-- Witness for C8: the serialized message is unchanged when the Bcc list
["b@x.com"] is replaced by the empty list, and the From header name is in
the allowed set. -/
theorem bccNeverAppearsInHeadersWitness :
    serializedView (build_message (fun _ => none) (fun _ => none) "a@x.com" ""
        ["r@x.com"] "s" "t" none [] ["b@x.com"] none []) =
      serializedView (build_message (fun _ => none) (fun _ => none) "a@x.com" ""
        ["r@x.com"] "s" "t" none [] [] none []) ∧
    ("From" : String) ∈ ["From", "To", "Cc", "Subject", "Reply-To"] :=
  ⟨(bccNeverAppearsInHeaders (fun _ => none) (fun _ => none) "a@x.com" ""
      ["r@x.com"] "s" "t" none [] none []).1 ["b@x.com"] [],
   (bccNeverAppearsInHeaders (fun _ => none) (fun _ => none) "a@x.com" ""
      ["r@x.com"] "s" "t" none [] none []).2 ["b@x.com"]
     { headers := [("From", "a@x.com"), ("To", "r@x.com"), ("Subject", "s")],
       bodyParts := [BodyPart.textPlain "t"], attachments := [],
       allRecipients := ["r@x.com", "b@x.com"] }
     (by decide) "From" "a@x.com" (by decide)⟩

/-- C9: an environment in which MAIL_PORT is set to a non-empty string that
is not a valid integer literal makes configuration loading raise the int()
conversion error instead of substituting the default port. -/
theorem invalidPortStringRaises (e : Env) (s : String) (hs : e.MAIL_PORT = some s)
    (hne : s ≠ "") (hinv : pyInt s = none) :
    load_transport_from_env e =
      Except.error ("invalid literal for int with base 10: " ++ s) := by
  unfold load_transport_from_env
  have hstr : orDefault (env_get e.MAIL_PORT (some "587")) "587" = s := by
    rw [hs]
    simp [env_get, orDefault, hne]
  simp only [hstr, hinv]

/-- Witness for C9 at MAIL_PORT = "abc". -/
theorem invalidPortStringRaisesWitness :
    ({ emptyEnv with MAIL_PORT := some "abc" } : Env).MAIL_PORT = some "abc" ∧
    ("abc" : String) ≠ "" ∧ pyInt "abc" = none ∧
    load_transport_from_env { emptyEnv with MAIL_PORT := some "abc" } =
      Except.error ("invalid literal for int with base 10: " ++ "abc") :=
  ⟨rfl, by decide, by decide,
   invalidPortStringRaises { emptyEnv with MAIL_PORT := some "abc" } "abc" rfl
     (by decide) (by decide)⟩

/-- C10: the silent STARTTLS fallback applies only to environment-supplied
encryption values: the --encryption flag is restricted at argument parsing
to the choices {tls, ssl, none} — any other command-line value is rejected
with a parse error rather than normalized — and an accepted command-line
value passes through the resolution fallbacks verbatim. -/
theorem cliEncryptionRestrictedToChoices :
    (∀ v, v ∉ encryptionChoices →
      parseEncryptionArg (some v) =
        Except.error ("argument --encryption: invalid choice: " ++ v)) ∧
    (∀ v, v ∈ encryptionChoices → parseEncryptionArg (some v) = Except.ok (some v)) ∧
    (∀ v args envCfg, args.encryption = some v → v ∈ encryptionChoices →
      (applyFallbacks (mergeCli args envCfg)).encryption = v) := by
  refine ⟨?_, ?_, ?_⟩
  · intro v hv
    unfold parseEncryptionArg
    simp [hv]
  · intro v hv
    unfold parseEncryptionArg
    simp [hv]
  · intro v args envCfg hargs hv
    have hmode : v ∈ encryptionModes := by
      simpa [encryptionModes, encryptionChoices] using hv
    have henc : (mergeCli args envCfg).encryption = v := by simp [mergeCli, hargs]
    rw [(applyFallbacks_fields (mergeCli args envCfg)).2.2.2.1, henc]
    exact if_pos hmode

/-- Witness for C10: "starttls" is rejected by the flag parser, "ssl" is
accepted and survives resolution unnormalized. -/
theorem cliEncryptionRestrictedToChoicesWitness :
    (("starttls" : String) ∉ encryptionChoices ∧
      parseEncryptionArg (some "starttls") =
        Except.error ("argument --encryption: invalid choice: " ++ "starttls")) ∧
    (("ssl" : String) ∈ encryptionChoices ∧
      parseEncryptionArg (some "ssl") = Except.ok (some "ssl")) ∧
    (applyFallbacks (mergeCli
        { «to» := ["r@x.com"], cc := [], bcc := [], subject := "s", text := "t",
          html := none, attachments := [], reply_to := none, from_address := none,
          from_name := none, user := none, password := none, host := none,
          port := none, encryption := some "ssl", cafile := none, insecure := false,
          dry_run := false }
        { provider := "smtp", user := "envuser", password := "pw",
          host := "smtp.example.com", port := 465, encryption := "tls",
          from_name := "", from_address := "env@x.com" })).encryption = "ssl" :=
  ⟨⟨by decide, cliEncryptionRestrictedToChoices.1 "starttls" (by decide)⟩,
   ⟨by decide, cliEncryptionRestrictedToChoices.2.1 "ssl" (by decide)⟩,
   cliEncryptionRestrictedToChoices.2.2 "ssl"
     { «to» := ["r@x.com"], cc := [], bcc := [], subject := "s", text := "t",
       html := none, attachments := [], reply_to := none, from_address := none,
       from_name := none, user := none, password := none, host := none,
       port := none, encryption := some "ssl", cafile := none, insecure := false,
       dry_run := false }
     { provider := "smtp", user := "envuser", password := "pw",
       host := "smtp.example.com", port := 465, encryption := "tls",
       from_name := "", from_address := "env@x.com" } rfl (by decide)⟩

end SmtpMailer
